import Mathlib

/-
Shallow embedding of the PyPI metadata client in
`anaconda_packaging_utils/api/pypi_api.py` and of the `ApiException`
constructor shared with `anaconda_packaging_utils/api/jira_api.py`.

JSON values that have already passed the module's `jsonschema` validation are
represented directly as typed records: the per-artifact schema
(`VersionMetadata.get_schema`) requires exactly the fields of `ArtifactJson`
with the listed types phrased there, and the code reads no other fields, so a
schema-valid artifact object is exactly an `ArtifactJson` value.  Likewise a
schema-valid top-level response is an `InfoJson` plus a `urls` array (plus a
`releases` object for the full-fetch endpoint).  A JSON `null` in a
string-or-null position is an `Option.none`; presence of the optional
`Homepage` / `Source` keys of `project_urls` is an `Option` as well.

Python exceptions (`ApiException`) are modelled with `Except String`, the
string being the exception message.  `datetime.datetime.fromisoformat` is
Python standard library, not repository code; it is carried as an explicit
parameter `p : String → Option Nat` (a timestamp parser that either parses a
string to an instant, modelled as `Nat`, or fails), so every theorem holds for
an arbitrary ISO-8601 parser.
-/

/-- Modelled from the spec: `anaconda_packaging_utils.cryptography.utils.is_valid_md5`
is not under the provided sources; per the spec an MD5 value "must match 32
lowercase hex digits". -/
def is_valid_md5 (s : String) : Bool :=
  s.length == 32 && s.data.all (fun c => c.isDigit || ('a' ≤ c && c ≤ 'f'))

/-- Modelled from the spec: `anaconda_packaging_utils.cryptography.utils.is_valid_sha256`
is not under the provided sources; per the spec a SHA-256 value "must match 64
lowercase hex digits". -/
def is_valid_sha256 (s : String) : Bool :=
  s.length == 64 && s.data.all (fun c => c.isDigit || ('a' ≤ c && c ≤ 'f'))

/-- Python `str.find` helper over character lists: index of the first
occurrence of `pat`, if any. -/
def findSub : List Char → List Char → Option Nat
  | [], pat => if pat.isEmpty then some 0 else none
  | c :: rest, pat =>
      if pat.isPrefixOf (c :: rest) then some 0
      else (findSub rest pat).map (fun n => n + 1)

/-- Python `str.find`: lowest index where `sub` occurs in `s`, and `-1` when
`sub` does not occur. -/
def pyFind (s sub : String) : Int :=
  match findSub s.data sub.data with
  | some n => Int.ofNat n
  | none => -1

/-- Substring containment, i.e. Python `sub in s` / `s.find(sub) != -1`. -/
def strContains (s sub : String) : Bool :=
  (findSub s.data sub.data).isSome

/-- A JSON object that validates against the per-artifact schema of
`VersionMetadata.get_schema`: a `digests` object with `md5` and `sha256`
strings (flattened here), plus `filename`, `python_version`, `size`,
`upload_time_iso_8601` and `url`. -/
structure ArtifactJson where
  md5 : String
  sha256 : String
  filename : String
  python_version : String
  size : Int
  upload_time_iso_8601 : String
  url : String
deriving DecidableEq

/-- The `VersionMetadata` dataclass of `pypi_api.py`, with the upload instant
produced by the timestamp parser. -/
structure VersionMetadata where
  md5 : String
  sha256 : String
  filename : String
  python_version : String
  size : Int
  upload_time : Nat
  url : String
deriving DecidableEq

/-- The `project_urls` sub-object of the `info` object: the schema lists the
optional keys `Homepage` and `Source`, whose presence is modelled by
`Option`. -/
structure ProjectUrls where
  homepage : Option String
  source : Option String
deriving DecidableEq

/-- The `info` object of a schema-valid top-level response, restricted to the
fields `_parse_package_info` reads.  Fields typed `string OR null` in the
schema are `Option String`. -/
structure InfoJson where
  description : Option String
  description_content_type : Option String
  docs_url : Option String
  license : String
  name : String
  package_url : String
  project_url : String
  project_urls : ProjectUrls
  release_url : String
  requires_python : String
  summary : Option String
  version : String
deriving DecidableEq

/-- The `PackageInfo` dataclass of `pypi_api.py`. -/
structure PackageInfo where
  description : String
  description_content_type : String
  docs_url : String
  license : String
  name : String
  package_url : String
  project_url : String
  homepage_url : String
  source_url : String
  release_url : String
  requires_python : String
  summary : String
  version : String
  source_metadata : VersionMetadata
deriving DecidableEq

/-- The `PackageMetadata` dataclass: a Python `dict[str, VersionMetadata]` is
modelled as an association list in insertion order with unique keys. -/
structure PackageMetadata where
  info : PackageInfo
  releases : List (String × VersionMetadata)
deriving DecidableEq

/-- A schema-valid response of the single-version endpoint
(`PackageInfo.get_schema(False)`): `info` and `urls` required. -/
structure ApiResponse where
  info : InfoJson
  urls : List ArtifactJson
deriving DecidableEq

/-- A schema-valid response of the full-fetch endpoint
(`PackageInfo.get_schema(True)`): `info`, `urls` and `releases` required.  The
`releases` JSON object is an association list (version, artifact array) in
iteration order. -/
structure FullApiResponse where
  info : InfoJson
  urls : List ArtifactJson
  releases : List (String × List ArtifactJson)
deriving DecidableEq

/-- Embeds `_check_for_empty_field`: raises `ApiException` when the value is empty. -/
def checkForEmptyField (field : String) (value : String) : Except String Unit :=
  if value.length == 0 then
    .error ("`" ++ field ++ "` field is empty: " ++ value)
  else
    .ok ()

/-- Embeds `_parse_version_metadata` on a schema-valid artifact object, parameterised
by the ISO-8601 timestamp parser `p` (for `datetime.datetime.fromisoformat`).
`int(data["size"])` is the identity on a schema-valid integer, and
`str(data["url"] or "")` is the identity on a schema-valid string (an empty
string maps to the empty string). -/
def parseVersionMetadata (p : String → Option Nat) (data : ArtifactJson) :
    Except String VersionMetadata :=
  match p data.upload_time_iso_8601 with
  | none => .error ("Failed to convert timestamp: " ++ data.upload_time_iso_8601)
  | some t =>
    let parsed : VersionMetadata :=
      { md5 := data.md5
        sha256 := data.sha256
        filename := data.filename
        python_version := data.python_version
        size := data.size
        upload_time := t
        url := data.url }
    if !is_valid_md5 parsed.md5 then
      .error ("VersionMetadata MD5 hash is invalid: " ++ parsed.md5)
    else if !is_valid_sha256 parsed.sha256 then
      -- The source interpolates `parsed.md5` into this message.
      .error ("VersionMetadata SHA-256 hash is invalid: " ++ parsed.md5)
    else
      match checkForEmptyField "VersionMetadata.filename" parsed.filename with
      | .error e => .error e
      | .ok _ =>
        match checkForEmptyField "VersionMetadata.python_version" parsed.python_version with
        | .error e => .error e
        | .ok _ => .ok parsed

/-- The scan of `_parse_package_info` over `urls`: the first entry whose
`python_version` equals `"source"`. -/
def findSourceUrl (urls : List ArtifactJson) : Option ArtifactJson :=
  urls.find? (fun u => u.python_version == "source")

/-- The `PackageInfo` record built by `_parse_package_info` once the source
artifact has been parsed: a JSON `null` in a string-or-null field becomes the
empty string, and the optional `Homepage` / `Source` keys of `project_urls`
default to the empty string when absent. -/
def buildPackageInfo (info : InfoJson) (version_metadata : VersionMetadata) :
    PackageInfo :=
  { description := info.description.getD ""
    description_content_type := info.description_content_type.getD ""
    docs_url := info.docs_url.getD ""
    license := info.license
    name := info.name
    package_url := info.package_url
    project_url := info.project_url
    homepage_url := info.project_urls.homepage.getD ""
    source_url := info.project_urls.source.getD ""
    release_url := info.release_url
    requires_python := info.requires_python
    summary := info.summary.getD ""
    version := info.version
    source_metadata := version_metadata }

/-- Embeds `_parse_package_info` on a schema-valid top-level response.  The six
trailing checks are applied to the fields of the freshly built record, in
source order. -/
def parsePackageInfo (p : String → Option Nat) (info : InfoJson)
    (urls : List ArtifactJson) : Except String PackageInfo :=
  match findSourceUrl urls with
  | none => .error "Source artifacts are not provided!"
  | some srcJson =>
    match parseVersionMetadata p srcJson with
    | .error e => .error e
    | .ok version_metadata =>
      match checkForEmptyField "PackageInfo.license" (buildPackageInfo info version_metadata).license with
      | .error e => .error e
      | .ok _ =>
      match checkForEmptyField "PackageInfo.name" (buildPackageInfo info version_metadata).name with
      | .error e => .error e
      | .ok _ =>
      match checkForEmptyField "PackageInfo.package_url" (buildPackageInfo info version_metadata).package_url with
      | .error e => .error e
      | .ok _ =>
      match checkForEmptyField "PackageInfo.project_url" (buildPackageInfo info version_metadata).project_url with
      | .error e => .error e
      | .ok _ =>
      match checkForEmptyField "PackageInfo.release_url" (buildPackageInfo info version_metadata).release_url with
      | .error e => .error e
      | .ok _ =>
      match checkForEmptyField "PackageInfo.version" (buildPackageInfo info version_metadata).version with
      | .error e => .error e
      | .ok _ => .ok (buildPackageInfo info version_metadata)

/-- Python `dict` assignment `d[k] = v`: replaces the value of an existing key
in place (keys of a `dict` are unique, so at most one entry matches),
otherwise appends the new pair. -/
def dictInsert : List (String × VersionMetadata) → String → VersionMetadata →
    List (String × VersionMetadata)
  | [], k, v => [(k, v)]
  | pr :: rest, k, v =>
      if pr.1 == k then (k, v) :: rest else pr :: dictInsert rest k v

/-- Python `dict` lookup: the value stored under key `k`, if any. -/
def dictLookup (d : List (String × VersionMetadata)) (k : String) :
    Option VersionMetadata :=
  (d.find? (fun pr => pr.1 == k)).map (fun pr => pr.2)

/-- The inner loop of `fetch_package_metadata` over one version's artifact
array: parse every artifact in order (the first parse failure aborts). -/
def parseSourceArtifacts (p : String → Option Nat) :
    List ArtifactJson → Except String (List VersionMetadata)
  | [] => .ok []
  | a :: rest =>
    match parseVersionMetadata p a with
    | .error e => .error e
    | .ok m =>
      match parseSourceArtifacts p rest with
      | .error e => .error e
      | .ok ms => .ok (m :: ms)

/-- The zero/one/many selection of `fetch_package_metadata` among the parsed
source artifacts of one release.  The many-artifact branch reproduces the
source's `for ... break / else` loop: the condition
`rel_artifact.filename.find(".tar")` is truthy exactly when the index returned
by `find` is non-zero, so the loop picks the first artifact whose filename
does NOT carry `".tar"` at index 0, and only when every filename starts with
`".tar"` does the `else` clause pick the first artifact. -/
def selectReleaseArtifact : List VersionMetadata → Except String VersionMetadata
  | [] => .error "API did not return any source artifacts."
  | [a] => .ok a
  | a :: b :: rest =>
    .ok (((a :: b :: rest).find? (fun m => !(pyFind m.filename ".tar" == 0))).getD a)

/-- One iteration of the `releases` scan for a single version: keep the
artifacts whose `python_version` is `"source"`, parse them, then select. -/
def selectSourceArtifact (p : String → Option Nat)
    (artifacts : List ArtifactJson) : Except String VersionMetadata :=
  match parseSourceArtifacts p (artifacts.filter (fun a => a.python_version == "source")) with
  | .error e => .error e
  | .ok release_artifacts => selectReleaseArtifact release_artifacts

/-- The `releases` scan of `fetch_package_metadata`: fold the per-version
selection over the `releases` object in iteration order, updating the result
dictionary. -/
def processReleases (p : String → Option Nat)
    (acc : List (String × VersionMetadata)) :
    List (String × List ArtifactJson) →
    Except String (List (String × VersionMetadata))
  | [] => .ok acc
  | (version, artifacts) :: rest =>
    match selectSourceArtifact p artifacts with
    | .error e => .error e
    | .ok sel => processReleases p (dictInsert acc version sel) rest

/-- Embeds `fetch_package_metadata` after the HTTP request and schema validation:
parse the top-level info, seed the result dictionary with
`info.version → info.source_metadata`, scan `releases`, and reject an empty
result dictionary. -/
def fetchPackageMetadata (p : String → Option Nat) (resp : FullApiResponse) :
    Except String PackageMetadata :=
  match parsePackageInfo p resp.info resp.urls with
  | .error e => .error e
  | .ok info =>
    match processReleases p [(info.version, info.source_metadata)] resp.releases with
    | .error e => .error e
    | .ok releases =>
      if releases.length == 0 then
        .error "API did not return any source information."
      else
        .ok { info := info, releases := releases }

/-- Embeds `fetch_package_version_metadata` after the HTTP request and schema
validation: parse the top-level info and return a one-entry release map. -/
def fetchPackageVersionMetadata (p : String → Option Nat) (resp : ApiResponse) :
    Except String PackageMetadata :=
  match parsePackageInfo p resp.info resp.urls with
  | .error e => .error e
  | .ok info =>
    .ok { info := info, releases := [(info.version, info.source_metadata)] }

/-- The message stored by `ApiException.__init__`, identical in `pypi_api.py`
and `jira_api.py`: a non-empty message is kept, an empty one is replaced by a
generic default. -/
def apiExceptionMessage (message : String) : String :=
  if message.length != 0 then message
  else "An unknown API issue was encountered."

/-- Whether an `Except` computation succeeded. -/
def resultIsOk {ε α : Type} : Except ε α → Bool
  | .ok _ => true
  | .error _ => false

/-- The validity invariant expected of every `VersionMetadata` reachable from
a successful fetch. -/
def validSourceMetadata (m : VersionMetadata) : Bool :=
  m.python_version == "source" && is_valid_md5 m.md5 && is_valid_sha256 m.sha256
    && m.filename != ""

/-- A timestamp parser that accepts every string, standing in for
`datetime.datetime.fromisoformat` on well-formed inputs. -/
def parseIsoTotal : String → Option Nat := fun _ => some 0

/-- A timestamp parser that accepts exactly the ISO-8601 string used by the
sample artifacts, standing in for `datetime.datetime.fromisoformat`, which
rejects strings such as `"not-a-timestamp"`. -/
def parseIsoStrict : String → Option Nat :=
  fun s => if s == "2023-01-01T00:00:00" then some 0 else none

/-- A well-formed MD5 digest string (32 lowercase hex digits). -/
def md5Hex : String := "0123456789abcdef0123456789abcdef"

/-- A well-formed SHA-256 digest string (64 lowercase hex digits). -/
def sha256Hex : String :=
  "0123456789abcdef0123456789abcdef0123456789abcdef0123456789abcdef"

/-- A source artifact whose filename names a tar archive. -/
def tarArtifact : ArtifactJson :=
  ⟨md5Hex, sha256Hex, "pkg-1.0.tar.gz", "source", 100, "2023-01-01T00:00:00",
    "https://example.com/pkg-1.0.tar.gz"⟩

/-- A source artifact whose filename names a zip archive. -/
def zipArtifact : ArtifactJson :=
  ⟨md5Hex, sha256Hex, "pkg-1.0.zip", "source", 100, "2023-01-01T00:00:00",
    "https://example.com/pkg-1.0.zip"⟩

/-- A wheel artifact: not a source artifact. -/
def wheelArtifact : ArtifactJson :=
  ⟨md5Hex, sha256Hex, "pkg-1.0-py3-none-any.whl", "py3", 100,
    "2023-01-01T00:00:00", "https://example.com/pkg-1.0-py3-none-any.whl"⟩

/-- A schema-valid artifact with valid digests but an empty filename. -/
def emptyFilenameArtifact : ArtifactJson :=
  ⟨md5Hex, sha256Hex, "", "source", 100, "2023-01-01T00:00:00", "u"⟩

/-- A schema-valid artifact with an invalid MD5 digest and an upload time that
no ISO-8601 parser accepts. -/
def badMd5BadTimeArtifact : ArtifactJson :=
  ⟨"zzz", sha256Hex, "pkg-1.0.tar.gz", "source", 100, "not-a-timestamp", "u"⟩

/-- A schema-valid artifact with an invalid MD5 digest and a well-formed
upload time. -/
def badMd5Artifact : ArtifactJson :=
  ⟨"zzz", sha256Hex, "pkg-1.0.tar.gz", "source", 100, "2023-01-01T00:00:00", "u"⟩

/-- The `VersionMetadata` obtained by parsing `tarArtifact` at instant 0. -/
def tarVM : VersionMetadata :=
  ⟨md5Hex, sha256Hex, "pkg-1.0.tar.gz", "source", 100, 0,
    "https://example.com/pkg-1.0.tar.gz"⟩

/-- The `VersionMetadata` obtained by parsing `zipArtifact` at instant 0. -/
def zipVM : VersionMetadata :=
  ⟨md5Hex, sha256Hex, "pkg-1.0.zip", "source", 100, 0,
    "https://example.com/pkg-1.0.zip"⟩

/-- A schema-valid `info` object with every required field non-empty and no
`Homepage` / `Source` keys in `project_urls`. -/
def sampleInfo : InfoJson :=
  ⟨some "desc", none, none, "BSD", "pkg", "https://pypi.org/project/pkg/",
    "https://pypi.org/project/pkg/", ⟨none, none⟩,
    "https://pypi.org/project/pkg/1.0/", "", none, "1.0"⟩

/-- A full-fetch response whose `releases` cover the latest version `"1.0"`
and an older version `"0.9"`. -/
def sampleFullResponse : FullApiResponse :=
  ⟨sampleInfo, [tarArtifact], [("1.0", [tarArtifact]), ("0.9", [zipArtifact])]⟩

/-- The metadata produced by a full fetch on `sampleFullResponse`. -/
def samplePackageMetadata : PackageMetadata :=
  ⟨buildPackageInfo sampleInfo tarVM, [("1.0", tarVM), ("0.9", zipVM)]⟩

/-- A full-fetch response whose `releases` object omits the latest version. -/
def seedOnlyResponse : FullApiResponse :=
  ⟨sampleInfo, [tarArtifact], [("0.9", [zipArtifact])]⟩

/-- The metadata produced by a full fetch on `seedOnlyResponse`: the entry for
`"1.0"` comes from the seeded `info.source_metadata`. -/
def seedOnlyMetadata : PackageMetadata :=
  ⟨buildPackageInfo sampleInfo tarVM, [("1.0", tarVM), ("0.9", zipVM)]⟩

/-- A full-fetch response with a release version that has no source
artifact. -/
def noSourceReleaseResponse : FullApiResponse :=
  ⟨sampleInfo, [tarArtifact], [("1.0", [wheelArtifact])]⟩

/-- A full-fetch response where the scan hits a bad-MD5 source artifact in an
earlier release before it reaches the release that has no source artifact. -/
def mixedFailureResponse : FullApiResponse :=
  ⟨sampleInfo, [tarArtifact], [("0.5", [badMd5Artifact]), ("1.0", [wheelArtifact])]⟩

/-- A single-version response. -/
def sampleVersionResponse : ApiResponse := ⟨sampleInfo, [tarArtifact]⟩

/-- The metadata produced by a single-version fetch on
`sampleVersionResponse`. -/
def sampleVersionMetadata : PackageMetadata :=
  ⟨buildPackageInfo sampleInfo tarVM, [("1.0", tarVM)]⟩

lemma string_beq_zero_iff (s : String) : (s.length == 0) = true ↔ s = "" := by
  constructor
  · intro h
    cases s with
    | mk data => cases data with
      | nil => rfl
      | cons c t => simp [String.length] at h
  · intro h; subst h; rfl

lemma checkForEmptyField_ok_iff (f v : String) :
    checkForEmptyField f v = .ok () ↔ v ≠ "" := by
  unfold checkForEmptyField
  by_cases h : (v.length == 0) = true
  · simp [h, (string_beq_zero_iff v).mp h]
  · simp [h]
    exact fun hv => h ((string_beq_zero_iff v).mpr hv)

lemma checkForEmptyField_error (f v : String) (h : v = "") :
    checkForEmptyField f v = .error ("`" ++ f ++ "` field is empty: " ++ v) := by
  subst h
  simp [checkForEmptyField]

lemma parseVersionMetadata_ok_elim {p : String → Option Nat} {a : ArtifactJson}
    {m : VersionMetadata} (h : parseVersionMetadata p a = .ok m) :
    ∃ t : Nat, p a.upload_time_iso_8601 = some t ∧
      m = ⟨a.md5, a.sha256, a.filename, a.python_version, a.size, t, a.url⟩ ∧
      is_valid_md5 a.md5 = true ∧ is_valid_sha256 a.sha256 = true ∧
      a.filename ≠ "" ∧ a.python_version ≠ "" := by
  unfold parseVersionMetadata at h
  cases hp : p a.upload_time_iso_8601 with
  | none => rw [hp] at h; exact absurd h (by simp)
  | some t =>
    rw [hp] at h
    simp only [] at h
    by_cases hmd5 : is_valid_md5 a.md5 = true
    · rw [hmd5] at h
      simp only [Bool.not_true, Bool.false_eq_true, if_false] at h
      by_cases hsha : is_valid_sha256 a.sha256 = true
      · rw [hsha] at h
        simp only [Bool.not_true, Bool.false_eq_true, if_false] at h
        cases hf : checkForEmptyField "VersionMetadata.filename" a.filename with
        | error e => rw [hf] at h; exact absurd h (by simp)
        | ok u =>
          rw [hf] at h
          cases hpv : checkForEmptyField "VersionMetadata.python_version" a.python_version with
          | error e => rw [hpv] at h; exact absurd h (by simp)
          | ok u2 =>
            rw [hpv] at h
            have hm : m = ⟨a.md5, a.sha256, a.filename, a.python_version, a.size, t, a.url⟩ := by
              cases h; rfl
            refine ⟨t, rfl, hm, hmd5, hsha, ?_, ?_⟩
            · exact (checkForEmptyField_ok_iff _ _).mp (by cases u; exact hf)
            · exact (checkForEmptyField_ok_iff _ _).mp (by cases u2; exact hpv)
      · rw [eq_false_of_ne_true hsha] at h
        exact absurd h (by simp)
    · rw [eq_false_of_ne_true hmd5] at h
      exact absurd h (by simp)

lemma parseVersionMetadata_ok_intro {p : String → Option Nat} {a : ArtifactJson}
    {t : Nat} (hp : p a.upload_time_iso_8601 = some t)
    (hmd5 : is_valid_md5 a.md5 = true) (hsha : is_valid_sha256 a.sha256 = true)
    (hf : a.filename ≠ "") (hpv : a.python_version ≠ "") :
    parseVersionMetadata p a =
      .ok ⟨a.md5, a.sha256, a.filename, a.python_version, a.size, t, a.url⟩ := by
  unfold parseVersionMetadata
  rw [hp]
  simp only [hmd5, Bool.not_true, Bool.false_eq_true, if_false]
  simp only [hsha, Bool.not_true, Bool.false_eq_true, if_false]
  rw [(checkForEmptyField_ok_iff "VersionMetadata.filename" a.filename).mpr hf]
  rw [(checkForEmptyField_ok_iff "VersionMetadata.python_version" a.python_version).mpr hpv]

lemma parsePackageInfo_none {p : String → Option Nat} {info : InfoJson}
    {urls : List ArtifactJson} (h : findSourceUrl urls = none) :
    parsePackageInfo p info urls = .error "Source artifacts are not provided!" := by
  unfold parsePackageInfo
  rw [h]

lemma parsePackageInfo_ok_elim {p : String → Option Nat} {info : InfoJson}
    {urls : List ArtifactJson} {pkg : PackageInfo}
    (h : parsePackageInfo p info urls = .ok pkg) :
    ∃ u vm, findSourceUrl urls = some u ∧ parseVersionMetadata p u = .ok vm ∧
      info.license ≠ "" ∧ info.name ≠ "" ∧ info.package_url ≠ "" ∧
      info.project_url ≠ "" ∧ info.release_url ≠ "" ∧ info.version ≠ "" ∧
      pkg = buildPackageInfo info vm := by
  unfold parsePackageInfo at h
  split at h
  · exact absurd h (by simp)
  next srcJson hfind =>
    split at h
    · exact absurd h (by simp)
    next vm hparse =>
      split at h
      · exact absurd h (by simp)
      next u1 hc1 =>
        split at h
        · exact absurd h (by simp)
        next u2 hc2 =>
          split at h
          · exact absurd h (by simp)
          next u3 hc3 =>
            split at h
            · exact absurd h (by simp)
            next u4 hc4 =>
              split at h
              · exact absurd h (by simp)
              next u5 hc5 =>
                split at h
                · exact absurd h (by simp)
                next u6 hc6 =>
                  cases u1; cases u2; cases u3; cases u4; cases u5; cases u6
                  refine ⟨srcJson, vm, hfind, hparse, ?_, ?_, ?_, ?_, ?_, ?_, ?_⟩
                  · exact (checkForEmptyField_ok_iff _ _).mp hc1
                  · exact (checkForEmptyField_ok_iff _ _).mp hc2
                  · exact (checkForEmptyField_ok_iff _ _).mp hc3
                  · exact (checkForEmptyField_ok_iff _ _).mp hc4
                  · exact (checkForEmptyField_ok_iff _ _).mp hc5
                  · exact (checkForEmptyField_ok_iff _ _).mp hc6
                  · cases h; rfl

lemma parsePackageInfo_ok_intro {p : String → Option Nat} {info : InfoJson}
    {urls : List ArtifactJson} {u : ArtifactJson} {vm : VersionMetadata}
    (hfind : findSourceUrl urls = some u)
    (hparse : parseVersionMetadata p u = .ok vm)
    (h1 : info.license ≠ "") (h2 : info.name ≠ "")
    (h3 : info.package_url ≠ "") (h4 : info.project_url ≠ "")
    (h5 : info.release_url ≠ "") (h6 : info.version ≠ "") :
    parsePackageInfo p info urls = .ok (buildPackageInfo info vm) := by
  have c1 : checkForEmptyField "PackageInfo.license" (buildPackageInfo info vm).license = .ok () :=
    (checkForEmptyField_ok_iff _ _).mpr h1
  have c2 : checkForEmptyField "PackageInfo.name" (buildPackageInfo info vm).name = .ok () :=
    (checkForEmptyField_ok_iff _ _).mpr h2
  have c3 : checkForEmptyField "PackageInfo.package_url" (buildPackageInfo info vm).package_url = .ok () :=
    (checkForEmptyField_ok_iff _ _).mpr h3
  have c4 : checkForEmptyField "PackageInfo.project_url" (buildPackageInfo info vm).project_url = .ok () :=
    (checkForEmptyField_ok_iff _ _).mpr h4
  have c5 : checkForEmptyField "PackageInfo.release_url" (buildPackageInfo info vm).release_url = .ok () :=
    (checkForEmptyField_ok_iff _ _).mpr h5
  have c6 : checkForEmptyField "PackageInfo.version" (buildPackageInfo info vm).version = .ok () :=
    (checkForEmptyField_ok_iff _ _).mpr h6
  unfold parsePackageInfo
  simp only [hfind, hparse, c1, c2, c3, c4, c5, c6]

lemma resultIsOk_iff {α : Type} (r : Except String α) :
    resultIsOk r = true ↔ ∃ x, r = .ok x := by
  cases r with
  | error e => simp [resultIsOk]
  | ok x => simp [resultIsOk]

lemma dictLookup_cons (pr : String × VersionMetadata)
    (rest : List (String × VersionMetadata)) (k : String) :
    dictLookup (pr :: rest) k =
      if pr.1 == k then some pr.2 else dictLookup rest k := by
  by_cases h : (pr.1 == k) = true
  · simp [dictLookup, List.find?, h]
  · simp only [Bool.not_eq_true] at h
    simp [dictLookup, List.find?, h]

lemma dictLookup_insert_self (d : List (String × VersionMetadata)) (k : String)
    (v : VersionMetadata) : dictLookup (dictInsert d k v) k = some v := by
  induction d with
  | nil => simp [dictInsert, dictLookup, List.find?]
  | cons pr rest ih =>
    by_cases h : (pr.1 == k) = true
    · simp [dictInsert, h, dictLookup_cons]
    · simp only [Bool.not_eq_true] at h
      simp [dictInsert, h, dictLookup_cons, ih]

lemma dictLookup_insert_ne (d : List (String × VersionMetadata))
    (k k' : String) (v : VersionMetadata) (h : k ≠ k') :
    dictLookup (dictInsert d k v) k' = dictLookup d k' := by
  induction d with
  | nil =>
    have hf : (k == k') = false := by simp [h]
    simp [dictInsert, dictLookup, List.find?, hf]
  | cons pr rest ih =>
    by_cases hpk : (pr.1 == k) = true
    · have hpr : pr.1 = k := by simpa using hpk
      have hf : (k == k') = false := by simp [h]
      simp [dictInsert, hpk, dictLookup_cons, hpr, hf, h]
    · simp only [Bool.not_eq_true] at hpk
      simp [dictInsert, hpk, dictLookup_cons, ih]

lemma mem_dictInsert {d : List (String × VersionMetadata)} {k : String}
    {v : VersionMetadata} {pr : String × VersionMetadata}
    (h : pr ∈ dictInsert d k v) : pr ∈ d ∨ pr = (k, v) := by
  induction d with
  | nil => simp [dictInsert] at h; simp [h]
  | cons hd rest ih =>
    by_cases hk : (hd.1 == k) = true
    · simp [dictInsert, hk] at h
      rcases h with h | h
      · right; simp [h]
      · left; simp [h]
    · simp only [Bool.not_eq_true] at hk
      simp [dictInsert, hk] at h
      rcases h with h | h
      · left; simp [h]
      · rcases ih h with h2 | h2
        · left; simp [h2]
        · right; exact h2

lemma parseSourceArtifacts_ok_mem {p : String → Option Nat}
    {as : List ArtifactJson} {ms : List VersionMetadata}
    (h : parseSourceArtifacts p as = .ok ms) :
    ∀ m ∈ ms, ∃ a ∈ as, parseVersionMetadata p a = .ok m := by
  induction as generalizing ms with
  | nil =>
    unfold parseSourceArtifacts at h
    cases h
    intro m hm
    exact absurd hm (by simp)
  | cons a rest ih =>
    unfold parseSourceArtifacts at h
    cases hp : parseVersionMetadata p a with
    | error e => rw [hp] at h; exact absurd h (by simp)
    | ok m0 =>
      rw [hp] at h
      cases hr : parseSourceArtifacts p rest with
      | error e => rw [hr] at h; exact absurd h (by simp)
      | ok ms0 =>
        rw [hr] at h
        cases h
        intro m hm
        rcases List.mem_cons.mp hm with h1 | h1
        · exact ⟨a, by simp, h1 ▸ hp⟩
        · rcases ih hr m h1 with ⟨a2, ha2, hpa2⟩
          exact ⟨a2, by simp [ha2], hpa2⟩

lemma parseSourceArtifacts_ok_nil {p : String → Option Nat}
    {as : List ArtifactJson} (h : parseSourceArtifacts p as = .ok []) :
    as = [] := by
  cases as with
  | nil => rfl
  | cons a rest =>
    unfold parseSourceArtifacts at h
    cases hp : parseVersionMetadata p a with
    | error e => rw [hp] at h; exact absurd h (by simp)
    | ok m0 =>
      rw [hp] at h
      cases hr : parseSourceArtifacts p rest with
      | error e => rw [hr] at h; exact absurd h (by simp)
      | ok ms0 => rw [hr] at h; exact absurd h (by simp)

lemma selectReleaseArtifact_ok_mem {ms : List VersionMetadata}
    {m : VersionMetadata} (h : selectReleaseArtifact ms = .ok m) : m ∈ ms := by
  cases ms with
  | nil => exact absurd h (by simp [selectReleaseArtifact])
  | cons a rest =>
    cases rest with
    | nil =>
      unfold selectReleaseArtifact at h
      cases h
      simp
    | cons b rest2 =>
      unfold selectReleaseArtifact at h
      cases h
      cases hf : (a :: b :: rest2).find? (fun m => !(pyFind m.filename ".tar" == 0)) with
      | none => simp [hf]
      | some x =>
        simp only [hf, Option.getD_some]
        exact List.mem_of_find?_eq_some hf

lemma selectSourceArtifact_ok_elim {p : String → Option Nat}
    {arts : List ArtifactJson} {m : VersionMetadata}
    (h : selectSourceArtifact p arts = .ok m) :
    ∃ a ∈ arts, a.python_version = "source" ∧ parseVersionMetadata p a = .ok m := by
  unfold selectSourceArtifact at h
  cases hp : parseSourceArtifacts p (arts.filter (fun a => a.python_version == "source")) with
  | error e => rw [hp] at h; exact absurd h (by simp)
  | ok ms =>
    rw [hp] at h
    have hm : m ∈ ms := selectReleaseArtifact_ok_mem h
    rcases parseSourceArtifacts_ok_mem hp m hm with ⟨a, ha, hpa⟩
    rcases List.mem_filter.mp ha with ⟨ha1, ha2⟩
    exact ⟨a, ha1, by simpa using ha2, hpa⟩

lemma selectSourceArtifact_empty {p : String → Option Nat}
    {arts : List ArtifactJson}
    (h : arts.filter (fun a => a.python_version == "source") = []) :
    selectSourceArtifact p arts = .error "API did not return any source artifacts." := by
  unfold selectSourceArtifact
  rw [h]
  rfl

lemma processReleases_ok_lookup_preserve {p : String → Option Nat}
    {l : List (String × List ArtifactJson)} :
    ∀ {acc d : List (String × VersionMetadata)} {v : String},
      processReleases p acc l = .ok d → v ∉ l.map Prod.fst →
      dictLookup d v = dictLookup acc v := by
  induction l with
  | nil =>
    intro acc d v h _
    unfold processReleases at h
    cases h
    rfl
  | cons hd rest ih =>
    intro acc d v h hv
    obtain ⟨v0, arts0⟩ := hd
    unfold processReleases at h
    cases hs : selectSourceArtifact p arts0 with
    | error e => rw [hs] at h; exact absurd h (by simp)
    | ok sel =>
      rw [hs] at h
      simp only [List.map_cons, List.mem_cons] at hv
      push_neg at hv
      rw [ih h hv.2]
      exact dictLookup_insert_ne acc v0 v sel (fun he => hv.1 he.symm)

lemma processReleases_ok_lookup_mem {p : String → Option Nat}
    {l : List (String × List ArtifactJson)} :
    ∀ {acc d : List (String × VersionMetadata)} {v : String}
      {arts : List ArtifactJson} {a : VersionMetadata},
      (l.map Prod.fst).Nodup → processReleases p acc l = .ok d →
      (v, arts) ∈ l → selectSourceArtifact p arts = .ok a →
      dictLookup d v = some a := by
  induction l with
  | nil =>
    intro acc d v arts a _ _ hmem _
    exact absurd hmem (by simp)
  | cons hd rest ih =>
    intro acc d v arts a hnd h hmem hsel
    obtain ⟨v0, arts0⟩ := hd
    unfold processReleases at h
    cases hs : selectSourceArtifact p arts0 with
    | error e => rw [hs] at h; exact absurd h (by simp)
    | ok sel =>
      rw [hs] at h
      have hnd2 : (v0 :: rest.map Prod.fst).Nodup := by simpa using hnd
      rcases List.mem_cons.mp hmem with h1 | h1
      · cases h1
        have hnotin : v ∉ rest.map Prod.fst := (List.nodup_cons.mp hnd2).1
        rw [processReleases_ok_lookup_preserve h hnotin]
        have : sel = a := by
          rw [hs] at hsel
          cases hsel
          rfl
        subst this
        exact dictLookup_insert_self acc v sel
      · exact ih (by simpa using (List.nodup_cons.mp hnd2).2) h h1 hsel

lemma processReleases_ok_step {p : String → Option Nat}
    {l : List (String × List ArtifactJson)} :
    ∀ {acc d : List (String × VersionMetadata)} {v : String}
      {arts : List ArtifactJson},
      processReleases p acc l = .ok d → (v, arts) ∈ l →
      ∃ m, selectSourceArtifact p arts = .ok m := by
  induction l with
  | nil =>
    intro acc d v arts _ hmem
    exact absurd hmem (by simp)
  | cons hd rest ih =>
    intro acc d v arts h hmem
    obtain ⟨v0, arts0⟩ := hd
    unfold processReleases at h
    cases hs : selectSourceArtifact p arts0 with
    | error e => rw [hs] at h; exact absurd h (by simp)
    | ok sel =>
      rw [hs] at h
      rcases List.mem_cons.mp hmem with h1 | h1
      · cases h1
        exact ⟨sel, hs⟩
      · exact ih h h1

lemma processReleases_ok_forall {p : String → Option Nat}
    {l : List (String × List ArtifactJson)} {P : VersionMetadata → Prop} :
    ∀ {acc d : List (String × VersionMetadata)},
      processReleases p acc l = .ok d →
      (∀ pr ∈ acc, P pr.2) →
      (∀ v arts m, (v, arts) ∈ l → selectSourceArtifact p arts = .ok m → P m) →
      ∀ pr ∈ d, P pr.2 := by
  induction l with
  | nil =>
    intro acc d h hacc _
    unfold processReleases at h
    cases h
    exact hacc
  | cons hd rest ih =>
    intro acc d h hacc hstep
    obtain ⟨v0, arts0⟩ := hd
    unfold processReleases at h
    cases hs : selectSourceArtifact p arts0 with
    | error e => rw [hs] at h; exact absurd h (by simp)
    | ok sel =>
      rw [hs] at h
      refine ih h ?_ ?_
      · intro pr hpr
        rcases mem_dictInsert hpr with h1 | h1
        · exact hacc pr h1
        · rw [h1]
          exact hstep v0 arts0 sel (by simp) hs
      · intro v arts m hmem hsel
        exact hstep v arts m (by simp [hmem]) hsel

lemma fetchPackageMetadata_ok_elim {p : String → Option Nat}
    {resp : FullApiResponse} {pm : PackageMetadata}
    (h : fetchPackageMetadata p resp = .ok pm) :
    parsePackageInfo p resp.info resp.urls = .ok pm.info ∧
    processReleases p [(pm.info.version, pm.info.source_metadata)] resp.releases
      = .ok pm.releases := by
  unfold fetchPackageMetadata at h
  cases hinfo : parsePackageInfo p resp.info resp.urls with
  | error e => rw [hinfo] at h; exact absurd h (by simp)
  | ok info =>
    rw [hinfo] at h
    dsimp only at h
    cases hrel : processReleases p [(info.version, info.source_metadata)] resp.releases with
    | error e => rw [hrel] at h; exact absurd h (by simp)
    | ok releases =>
      rw [hrel] at h
      dsimp only at h
      by_cases hlen : (releases.length == 0) = true
      · rw [hlen] at h
        exact absurd h (by simp)
      · rw [eq_false_of_ne_true hlen] at h
        simp only [Bool.false_eq_true, if_false] at h
        cases h
        exact ⟨rfl, hrel⟩

lemma fetchPackageVersionMetadata_ok_elim {p : String → Option Nat}
    {resp : ApiResponse} {pm : PackageMetadata}
    (h : fetchPackageVersionMetadata p resp = .ok pm) :
    parsePackageInfo p resp.info resp.urls = .ok pm.info ∧
    pm.releases = [(pm.info.version, pm.info.source_metadata)] := by
  unfold fetchPackageVersionMetadata at h
  cases hinfo : parsePackageInfo p resp.info resp.urls with
  | error e => rw [hinfo] at h; exact absurd h (by simp)
  | ok info =>
    rw [hinfo] at h
    dsimp only at h
    cases h
    exact ⟨rfl, rfl⟩

lemma processReleases_cons_error {p : String → Option Nat}
    {acc : List (String × VersionMetadata)} {v : String}
    {arts : List ArtifactJson} {rest : List (String × List ArtifactJson)}
    {e : String} (hsel : selectSourceArtifact p arts = .error e) :
    processReleases p acc ((v, arts) :: rest) = .error e := by
  unfold processReleases
  rw [hsel]

lemma fetchPackageMetadata_rel_error {p : String → Option Nat}
    {resp : FullApiResponse} {info : PackageInfo} {e : String}
    (hinfo : parsePackageInfo p resp.info resp.urls = .ok info)
    (hrel : processReleases p [(info.version, info.source_metadata)]
      resp.releases = .error e) :
    fetchPackageMetadata p resp = .error e := by
  unfold fetchPackageMetadata
  rw [hinfo]
  dsimp only
  rw [hrel]

/-- Claim C1: with two source artifacts `pkg-1.0.zip` and `pkg-1.0.tar.gz`,
the selection step of `fetch_package_metadata` does NOT choose the tar-named
artifact regardless of order: the truthiness of `filename.find(".tar")`
selects the first artifact whose filename does not start with `".tar"`, so
with the zip first the zip is chosen.  This evaluates the embedded selection
at that failing input, contradicting the claim and the source's own comment
that tarballs are preferred over zips. -/
theorem c1_tar_selection_order_dependent :
    selectSourceArtifact parseIsoTotal [zipArtifact, tarArtifact] = .ok zipVM ∧
    selectSourceArtifact parseIsoTotal [tarArtifact, zipArtifact] = .ok tarVM := by
  constructor <;> rfl

/-- Claim C2 (amended): for every schema-valid artifact whose MD5 is a valid
32-hex-digit string, whose SHA-256 is a valid 64-hex-digit string, whose
filename and python_version are non-empty, and whose upload time is accepted
by the ISO-8601 parser, `_parse_version_metadata` succeeds and the returned
record's seven fields equal the corresponding input fields exactly (the
upload time being the parsed instant). -/
theorem c2_artifact_roundtrip (p : String → Option Nat) (a : ArtifactJson)
    (t : Nat) (hp : p a.upload_time_iso_8601 = some t)
    (hmd5 : is_valid_md5 a.md5 = true) (hsha : is_valid_sha256 a.sha256 = true)
    (hf : a.filename ≠ "") (hpv : a.python_version ≠ "") :
    parseVersionMetadata p a =
      .ok ⟨a.md5, a.sha256, a.filename, a.python_version, a.size, t, a.url⟩ :=
  parseVersionMetadata_ok_intro hp hmd5 hsha hf hpv

/-- Claim C2 counterexample: a schema-valid artifact with valid MD5 and
SHA-256 digests but an empty filename is rejected by
`_parse_version_metadata`, so valid digests alone do not guarantee success. -/
theorem c2_hash_only_hypotheses_insufficient :
    is_valid_md5 emptyFilenameArtifact.md5 = true ∧
    is_valid_sha256 emptyFilenameArtifact.sha256 = true ∧
    parseVersionMetadata parseIsoTotal emptyFilenameArtifact =
      .error "`VersionMetadata.filename` field is empty: " := by
  refine ⟨rfl, rfl, ?_⟩
  rfl

/-- Witness for C2: the amended round-trip theorem applied to a concrete
artifact. -/
theorem c2_artifact_roundtrip_witness :
    parseVersionMetadata parseIsoTotal tarArtifact =
      .ok ⟨md5Hex, sha256Hex, "pkg-1.0.tar.gz", "source", 100, 0,
        "https://example.com/pkg-1.0.tar.gz"⟩ :=
  c2_artifact_roundtrip parseIsoTotal tarArtifact 0 rfl rfl rfl
    (by decide) (by decide)

/-- Claim C8: the `ApiException` constructor of `pypi_api.py` and
`jira_api.py` replaces an empty message with a non-empty generic default and
keeps any non-empty message unchanged. -/
theorem c8_empty_message_default (m : String) :
    (m = "" → apiExceptionMessage m = "An unknown API issue was encountered." ∧
      apiExceptionMessage m ≠ "") ∧
    (m ≠ "" → apiExceptionMessage m = m) := by
  constructor
  · intro h
    subst h
    exact ⟨rfl, by decide⟩
  · intro h
    unfold apiExceptionMessage
    have hz : (m.length == 0) = false := by
      rcases Bool.eq_false_or_eq_true (m.length == 0) with h2 | h2
      · exact absurd ((string_beq_zero_iff m).mp h2) h
      · exact h2
    simp [bne, hz]

/-- Witness for C8: the empty message gets the default, a non-empty message
is preserved. -/
theorem c8_empty_message_default_witness :
    (apiExceptionMessage "" = "An unknown API issue was encountered." ∧
      apiExceptionMessage "" ≠ "") ∧
    apiExceptionMessage "oops" = "oops" :=
  ⟨(c8_empty_message_default "").1 rfl,
    (c8_empty_message_default "oops").2 (by decide)⟩

/-- Claim C9: a successful single-version fetch returns a releases mapping
with exactly one entry, keyed by the parsed `info.version` and holding the
parsed `info.source_metadata`. -/
theorem c9_single_version_releases_singleton (p : String → Option Nat)
    (resp : ApiResponse) (pm : PackageMetadata)
    (h : fetchPackageVersionMetadata p resp = .ok pm) :
    pm.releases = [(pm.info.version, pm.info.source_metadata)] :=
  (fetchPackageVersionMetadata_ok_elim h).2

/-- Witness for C9: the single-version fetch on a concrete response. -/
theorem c9_single_version_releases_singleton_witness :
    sampleVersionMetadata.releases =
      [(sampleVersionMetadata.info.version,
        sampleVersionMetadata.info.source_metadata)] :=
  c9_single_version_releases_singleton parseIsoTotal sampleVersionResponse
    sampleVersionMetadata rfl

/-- Claim C3: `_parse_package_info` takes the first `urls` entry with
`python_version == "source"` as the package's source metadata, and when no
such entry exists it fails with the "source artifacts are not provided"
error. -/
theorem c3_first_source_url_selected (p : String → Option Nat)
    (info : InfoJson) (urls : List ArtifactJson) :
    (findSourceUrl urls = none →
      parsePackageInfo p info urls = .error "Source artifacts are not provided!") ∧
    (∀ u pkg, findSourceUrl urls = some u →
      parsePackageInfo p info urls = .ok pkg →
      parseVersionMetadata p u = .ok pkg.source_metadata) := by
  constructor
  · exact parsePackageInfo_none
  · intro u pkg hfind hok
    rcases parsePackageInfo_ok_elim hok with
      ⟨u2, vm, hfind2, hparse, _, _, _, _, _, _, hpkg⟩
    rw [hfind] at hfind2
    cases hfind2
    rw [hpkg]
    exact hparse

/-- Witness for C3: a response with no source entry in `urls` fails with the
expected message, and a response whose first source entry is `tarArtifact`
stores its parse as the package's source metadata. -/
theorem c3_first_source_url_selected_witness :
    parsePackageInfo parseIsoTotal sampleInfo [wheelArtifact] =
      .error "Source artifacts are not provided!" ∧
    parseVersionMetadata parseIsoTotal tarArtifact =
      .ok (buildPackageInfo sampleInfo tarVM).source_metadata :=
  ⟨(c3_first_source_url_selected parseIsoTotal sampleInfo [wheelArtifact]).1 rfl,
    (c3_first_source_url_selected parseIsoTotal sampleInfo [wheelArtifact, tarArtifact]).2
      tarArtifact (buildPackageInfo sampleInfo tarVM) rfl rfl⟩

/-- Claim C5 (amended): a schema-valid full-fetch response containing a
release version with no source artifact makes `fetch_package_metadata` fail
with an `ApiException` instead of returning a `PackageMetadata`; the error
carries the "no source artifacts" message
(`"API did not return any source artifacts."`) whenever that zero-source
version is the first release scanned and the top-level info parse succeeded
(an earlier failure otherwise surfaces its own message). -/
theorem c5_zero_source_release_fails (p : String → Option Nat)
    (resp : FullApiResponse) (v : String) (arts : List ArtifactJson)
    (hmem : (v, arts) ∈ resp.releases)
    (hflt : arts.filter (fun a => a.python_version == "source") = []) :
    (∃ e, fetchPackageMetadata p resp = .error e) ∧
    (∀ rest info, resp.releases = (v, arts) :: rest →
      parsePackageInfo p resp.info resp.urls = .ok info →
      fetchPackageMetadata p resp =
        .error "API did not return any source artifacts.") := by
  constructor
  · cases hres : fetchPackageMetadata p resp with
    | error e => exact ⟨e, rfl⟩
    | ok pm =>
      rcases fetchPackageMetadata_ok_elim hres with ⟨_, hrel⟩
      rcases processReleases_ok_step hrel hmem with ⟨m, hsel⟩
      rw [selectSourceArtifact_empty hflt] at hsel
      exact absurd hsel (by simp)
  · intro rest info hreleases hinfo
    refine fetchPackageMetadata_rel_error hinfo ?_
    rw [hreleases]
    exact processReleases_cons_error (selectSourceArtifact_empty hflt)

/-- Claim C5 counterexample: on a response whose scan meets a bad-MD5 source
artifact in an earlier release before the zero-source release, the fetch
fails with the MD5 message, not the "no source artifacts" message, so the
claim's parenthetical identification of the error is false as a universal
statement. -/
theorem c5_earlier_failure_masks_message :
    (("1.0", [wheelArtifact]) ∈ mixedFailureResponse.releases ∧
      [wheelArtifact].filter (fun a => a.python_version == "source") = []) ∧
    fetchPackageMetadata parseIsoTotal mixedFailureResponse =
      .error "VersionMetadata MD5 hash is invalid: zzz" ∧
    "VersionMetadata MD5 hash is invalid: zzz" ≠
      "API did not return any source artifacts." := by
  refine ⟨⟨by simp [mixedFailureResponse], rfl⟩, ?_, by decide⟩
  rfl

/-- Witness for C5: a release whose only artifact is a wheel aborts the whole
fetch, and — being the first release scanned after a successful info parse —
with exactly the "no source artifacts" message. -/
theorem c5_zero_source_release_fails_witness :
    (∃ e, fetchPackageMetadata parseIsoTotal noSourceReleaseResponse = .error e) ∧
    fetchPackageMetadata parseIsoTotal noSourceReleaseResponse =
      .error "API did not return any source artifacts." :=
  have h := c5_zero_source_release_fails parseIsoTotal noSourceReleaseResponse
    "1.0" [wheelArtifact] (by simp [noSourceReleaseResponse]) (by decide)
  ⟨h.1, h.2 [] (buildPackageInfo sampleInfo tarVM) rfl rfl⟩

/-- Claim C6 (amended): for every schema-valid artifact whose upload time is
accepted by the ISO-8601 parser, an invalid MD5, an invalid SHA-256, an empty
filename, or an empty python_version makes `_parse_version_metadata` fail
with an `ApiException` naming the offending field, the checks being applied
in that order (the SHA-256 message names the SHA-256 field but interpolates
the MD5 value, as the source does). -/
theorem c6_invalid_field_error_naming (p : String → Option Nat)
    (a : ArtifactJson) (t : Nat) (hp : p a.upload_time_iso_8601 = some t) :
    (is_valid_md5 a.md5 = false →
      parseVersionMetadata p a =
        .error ("VersionMetadata MD5 hash is invalid: " ++ a.md5)) ∧
    (is_valid_md5 a.md5 = true → is_valid_sha256 a.sha256 = false →
      parseVersionMetadata p a =
        .error ("VersionMetadata SHA-256 hash is invalid: " ++ a.md5)) ∧
    (is_valid_md5 a.md5 = true → is_valid_sha256 a.sha256 = true →
      a.filename = "" →
      parseVersionMetadata p a =
        .error ("`VersionMetadata.filename` field is empty: " ++ a.filename)) ∧
    (is_valid_md5 a.md5 = true → is_valid_sha256 a.sha256 = true →
      a.filename ≠ "" → a.python_version = "" →
      parseVersionMetadata p a =
        .error ("`VersionMetadata.python_version` field is empty: " ++ a.python_version)) := by
  refine ⟨?_, ?_, ?_, ?_⟩
  · intro hmd5
    unfold parseVersionMetadata
    rw [hp]
    simp only [hmd5, Bool.not_false, if_true]
  · intro hmd5 hsha
    unfold parseVersionMetadata
    rw [hp]
    simp only [hmd5, Bool.not_true, Bool.false_eq_true, if_false]
    simp only [hsha, Bool.not_false, if_true]
  · intro hmd5 hsha hfil
    unfold parseVersionMetadata
    rw [hp]
    simp only [hmd5, Bool.not_true, Bool.false_eq_true, if_false]
    simp only [hsha, Bool.not_true, Bool.false_eq_true, if_false]
    rw [checkForEmptyField_error _ _ hfil]
    rfl
  · intro hmd5 hsha hfil hpv
    unfold parseVersionMetadata
    rw [hp]
    simp only [hmd5, Bool.not_true, Bool.false_eq_true, if_false]
    simp only [hsha, Bool.not_true, Bool.false_eq_true, if_false]
    rw [(checkForEmptyField_ok_iff "VersionMetadata.filename" _).mpr hfil]
    rw [checkForEmptyField_error _ _ hpv]
    rfl

/-- Claim C6 counterexample: an artifact with an invalid MD5 and an
unparsable upload time fails with the timestamp message, which names none of
the four fields of the claim, so the claim as stated (conditioned only on
schema validity and a field violation) is false. -/
theorem c6_timestamp_failure_preempts_field_naming :
    is_valid_md5 badMd5BadTimeArtifact.md5 = false ∧
    parseVersionMetadata parseIsoStrict badMd5BadTimeArtifact =
      .error "Failed to convert timestamp: not-a-timestamp" ∧
    strContains "Failed to convert timestamp: not-a-timestamp" "MD5" = false ∧
    strContains "Failed to convert timestamp: not-a-timestamp" "md5" = false ∧
    strContains "Failed to convert timestamp: not-a-timestamp" "SHA-256" = false ∧
    strContains "Failed to convert timestamp: not-a-timestamp" "filename" = false ∧
    strContains "Failed to convert timestamp: not-a-timestamp" "python_version" = false := by
  refine ⟨rfl, ?_, rfl, rfl, rfl, rfl, rfl⟩
  rfl

/-- Witness for C6: a concrete invalid-MD5 artifact with a parsable upload
time produces the MD5-naming error message. -/
theorem c6_invalid_field_error_naming_witness :
    parseVersionMetadata parseIsoTotal badMd5Artifact =
      .error ("VersionMetadata MD5 hash is invalid: " ++ badMd5Artifact.md5) :=
  (c6_invalid_field_error_naming parseIsoTotal badMd5Artifact 0 rfl).1 rfl

lemma validSourceMetadata_of_parse {p : String → Option Nat}
    {u : ArtifactJson} {m : VersionMetadata} (hpv : u.python_version = "source")
    (h : parseVersionMetadata p u = .ok m) : validSourceMetadata m = true := by
  rcases parseVersionMetadata_ok_elim h with ⟨t, hp, hm, hmd5, hsha, hf, _⟩
  subst hm
  simp [validSourceMetadata, hpv, hmd5, hsha, bne]
  exact hf

lemma parsePackageInfo_source_valid {p : String → Option Nat}
    {info : InfoJson} {urls : List ArtifactJson} {pkg : PackageInfo}
    (h : parsePackageInfo p info urls = .ok pkg) :
    validSourceMetadata pkg.source_metadata = true := by
  rcases parsePackageInfo_ok_elim h with
    ⟨u, vm, hfind, hparse, _, _, _, _, _, _, hpkg⟩
  have hpred := List.find?_some (by simpa [findSourceUrl] using hfind)
  have hpv : u.python_version = "source" := by simpa using hpred
  rw [hpkg]
  exact validSourceMetadata_of_parse hpv hparse

/-- Claim C4: on a successful full fetch, the releases mapping is the seeded
`info.version → info.source_metadata` singleton updated with the selected
source artifact of every key of the response's `releases` object, so a
version that occurs in `releases` — the seeded `info.version` included — maps
to the artifact selected by the `releases` scan, and the seeded entry remains
only for a version absent from `releases`. -/
theorem c4_releases_mapping_seed_and_overwrite (p : String → Option Nat)
    (resp : FullApiResponse) (pm : PackageMetadata)
    (hnd : (resp.releases.map Prod.fst).Nodup)
    (hok : fetchPackageMetadata p resp = .ok pm) :
    (∀ v arts a, (v, arts) ∈ resp.releases →
      selectSourceArtifact p arts = .ok a →
      dictLookup pm.releases v = some a) ∧
    (pm.info.version ∉ resp.releases.map Prod.fst →
      dictLookup pm.releases pm.info.version = some pm.info.source_metadata) := by
  rcases fetchPackageMetadata_ok_elim hok with ⟨_, hrel⟩
  constructor
  · intro v arts a hmem hsel
    exact processReleases_ok_lookup_mem hnd hrel hmem hsel
  · intro hnotin
    rw [processReleases_ok_lookup_preserve hrel hnotin]
    simp [dictLookup, List.find?]

/-- Witness for C4: on a concrete full fetch, the `releases` scan determines
the entry for a scanned version, and the seeded latest version survives when
`releases` omits it. -/
theorem c4_releases_mapping_seed_and_overwrite_witness :
    dictLookup samplePackageMetadata.releases "0.9" = some zipVM ∧
    dictLookup seedOnlyMetadata.releases seedOnlyMetadata.info.version =
      some seedOnlyMetadata.info.source_metadata :=
  ⟨(c4_releases_mapping_seed_and_overwrite parseIsoTotal sampleFullResponse
      samplePackageMetadata (by decide) rfl).1 "0.9" [zipArtifact] zipVM
      (by decide) rfl,
    (c4_releases_mapping_seed_and_overwrite parseIsoTotal seedOnlyResponse
      seedOnlyMetadata (by decide) rfl).2 (by decide)⟩

/-- Claim C7: a missing `Homepage` or `Source` key of `project_urls` yields
an empty `homepage_url` / `source_url` on a successful parse, and the success
of `_parse_package_info` never depends on the `project_urls` content. -/
theorem c7_missing_project_urls_default_empty (p : String → Option Nat)
    (info : InfoJson) (urls : List ArtifactJson) :
    (∀ pkg, parsePackageInfo p info urls = .ok pkg →
      (info.project_urls.homepage = none → pkg.homepage_url = "") ∧
      (info.project_urls.source = none → pkg.source_url = "")) ∧
    (∀ pu, resultIsOk (parsePackageInfo p info urls) =
      resultIsOk (parsePackageInfo p { info with project_urls := pu } urls)) := by
  constructor
  · intro pkg hok
    rcases parsePackageInfo_ok_elim hok with
      ⟨u, vm, _, _, _, _, _, _, _, _, hpkg⟩
    subst hpkg
    constructor
    · intro hnone
      simp [buildPackageInfo, hnone]
    · intro hnone
      simp [buildPackageInfo, hnone]
  · intro pu
    rw [Bool.eq_iff_iff]
    rw [resultIsOk_iff, resultIsOk_iff]
    constructor
    · rintro ⟨pkg, hok⟩
      rcases parsePackageInfo_ok_elim hok with
        ⟨u, vm, hfind, hparse, h1, h2, h3, h4, h5, h6, _⟩
      exact ⟨_, @parsePackageInfo_ok_intro p { info with project_urls := pu } urls u vm
        hfind hparse h1 h2 h3 h4 h5 h6⟩
    · rintro ⟨pkg, hok⟩
      rcases parsePackageInfo_ok_elim hok with
        ⟨u, vm, hfind, hparse, h1, h2, h3, h4, h5, h6, _⟩
      exact ⟨_, @parsePackageInfo_ok_intro p info urls u vm
        hfind hparse h1 h2 h3 h4 h5 h6⟩

/-- Witness for C7: with both keys absent the parsed record carries empty
URLs, and replacing `project_urls` entirely does not change success. -/
theorem c7_missing_project_urls_default_empty_witness :
    ((buildPackageInfo sampleInfo tarVM).homepage_url = "" ∧
      (buildPackageInfo sampleInfo tarVM).source_url = "") ∧
    resultIsOk (parsePackageInfo parseIsoTotal sampleInfo [tarArtifact]) =
      resultIsOk (parsePackageInfo parseIsoTotal
        { sampleInfo with project_urls := ⟨some "h", some "s"⟩ } [tarArtifact]) :=
  ⟨⟨((c7_missing_project_urls_default_empty parseIsoTotal sampleInfo
        [tarArtifact]).1 (buildPackageInfo sampleInfo tarVM) rfl).1 rfl,
    ((c7_missing_project_urls_default_empty parseIsoTotal sampleInfo
        [tarArtifact]).1 (buildPackageInfo sampleInfo tarVM) rfl).2 rfl⟩,
    (c7_missing_project_urls_default_empty parseIsoTotal sampleInfo
        [tarArtifact]).2 ⟨some "h", some "s"⟩⟩

/-- Claim C10: every `VersionMetadata` reachable from a successful fetch —
full or single-version — has `python_version = "source"`, a valid MD5, a
valid SHA-256 and a non-empty filename. -/
theorem c10_reachable_metadata_invariant (p : String → Option Nat) :
    (∀ (resp : FullApiResponse) (pm : PackageMetadata),
      fetchPackageMetadata p resp = .ok pm →
      validSourceMetadata pm.info.source_metadata = true ∧
      ∀ pr ∈ pm.releases, validSourceMetadata pr.2 = true) ∧
    (∀ (resp : ApiResponse) (pm : PackageMetadata),
      fetchPackageVersionMetadata p resp = .ok pm →
      validSourceMetadata pm.info.source_metadata = true ∧
      ∀ pr ∈ pm.releases, validSourceMetadata pr.2 = true) := by
  constructor
  · intro resp pm hok
    rcases fetchPackageMetadata_ok_elim hok with ⟨hinfo, hrel⟩
    have hsm : validSourceMetadata pm.info.source_metadata = true :=
      parsePackageInfo_source_valid hinfo
    refine ⟨hsm, ?_⟩
    refine @processReleases_ok_forall p resp.releases (fun m => validSourceMetadata m = true) _ _ hrel ?_ ?_
    · intro pr hpr
      have hpr2 := List.mem_singleton.mp hpr
      rw [hpr2]
      exact hsm
    · intro v arts m hmem hsel
      rcases selectSourceArtifact_ok_elim hsel with ⟨a, ha, hapv, hparse⟩
      exact validSourceMetadata_of_parse hapv hparse
  · intro resp pm hok
    rcases fetchPackageVersionMetadata_ok_elim hok with ⟨hinfo, hrelEq⟩
    have hsm : validSourceMetadata pm.info.source_metadata = true :=
      parsePackageInfo_source_valid hinfo
    refine ⟨hsm, ?_⟩
    intro pr hpr
    rw [hrelEq] at hpr
    have hpr2 := List.mem_singleton.mp hpr
    rw [hpr2]
    exact hsm

/-- Witness for C10: the invariant at concrete full and single-version
fetches. -/
theorem c10_reachable_metadata_invariant_witness :
    validSourceMetadata samplePackageMetadata.info.source_metadata = true ∧
    validSourceMetadata sampleVersionMetadata.info.source_metadata = true :=
  ⟨((c10_reachable_metadata_invariant parseIsoTotal).1 sampleFullResponse
      samplePackageMetadata rfl).1,
    ((c10_reachable_metadata_invariant parseIsoTotal).2 sampleVersionResponse
      sampleVersionMetadata rfl).1⟩
